import Mathlib

/-!
Shallow embedding of the medical-RAG safety engine
(`src/medical_validator.py` and `src/medical_chatbot.py`).

Strings are Lean `String`s; Python `str.lower()` is modelled by mapping
`Char.toLower` over the characters (the rule literals and keyword tables
only contain ASCII letters and Korean, on which both agree).  Python
floats are modelled by `ℚ`: every confidence arithmetic in the source is
a subtraction of decimal literals followed by `max 0.1 _`, and the
comparison outcomes of the IEEE-754 run coincide with the rational ones
on all reachable values.  `re.search` with the source's pattern shapes
(sequences of literal-alternation groups joined by `.*`, `re.IGNORECASE`
over already-lowercased text, `.` not matching a newline) is embedded by
`reSearch` below.
-/

namespace RagMed

/-- Python `str.lower()` (ASCII case folding; Korean is caseless). -/
def lowerStr (s : String) : String := String.mk (s.data.map Char.toLower)

/-- `isPre p l` : the list `p` is a prefix of the list `l`. -/
def isPre : List Char → List Char → Bool
  | [], _ => true
  | _ :: _, [] => false
  | a :: as, b :: bs => a == b && isPre as bs

/-- All suffixes of a list, longest first (including the empty one). -/
def listSuffixes : List Char → List (List Char)
  | [] => [[]]
  | c :: t => (c :: t) :: listSuffixes t

/-- Python `pat in s` (substring test). -/
def strContains (s pat : String) : Bool :=
  (listSuffixes s.data).any (fun t => isPre pat.data t)

/-- Python `"sep".join(parts)`. -/
def strJoin (sep : String) : List String → String
  | [] => ""
  | [x] => x
  | x :: y :: t => x ++ sep ++ strJoin sep (y :: t)

/-- `re.search` of a pattern `p₁.*p₂.*…*pₙ` restricted to one line:
each `pᵢ` is an alternation of literals; the groups must occur left to
right, each starting at or after the end of the previous match. -/
def matchSeq (parts : List (List String)) : List Char → Bool :=
  match parts with
  | [] => fun _ => true
  | alts :: rest =>
    let f := matchSeq rest
    fun line =>
      (listSuffixes line).any fun t =>
        alts.any fun a => isPre a.data t && f (t.drop a.data.length)

/-- Split a character list at newline characters (semantics of
`str.split("\n")`: `"a\nb"` gives two lines, an empty text one empty
line). -/
def splitLines : List Char → List (List Char)
  | [] => [[]]
  | c :: t =>
    match splitLines t, c == '\n' with
    | r, true => [] :: r
    | [], false => [[c]]
    | h :: rest, false => (c :: h) :: rest

/-- `re.search(pattern, content.lower(), re.IGNORECASE)` for the
source's patterns: `.` does not match `\n`, so (the literals containing
no newline) a match lies within a single line. -/
def reSearch (parts : List (List String)) (content : String) : Bool :=
  (splitLines (content.data.map Char.toLower)).any fun line => matchSeq parts line

inductive RiskLevel
  | SAFE
  | CAUTION
  | DANGEROUS
deriving DecidableEq, Repr

/-- `RiskLevel(...)` `.value` strings of the Python enum. -/
def RiskLevel.value : RiskLevel → String
  | .SAFE => "safe"
  | .CAUTION => "caution"
  | .DANGEROUS => "dangerous"

inductive ReliabilityLevel
  | HIGH
  | MEDIUM
  | LOW
  | UNKNOWN
deriving DecidableEq, Repr

def ReliabilityLevel.value : ReliabilityLevel → String
  | .HIGH => "high"
  | .MEDIUM => "medium"
  | .LOW => "low"
  | .UNKNOWN => "unknown"

structure ValidationResult where
  is_safe : Bool
  risk_level : RiskLevel
  reliability : ReliabilityLevel
  warnings : List String
  recommendations : List String
  confidence_score : ℚ
deriving DecidableEq, Repr

/-- A dangerous-content rule: pattern (as alternation groups), message.
All source rules carry `risk = DANGEROUS`, kept implicit. -/
structure DangerousRule where
  pattern : List (List String)
  message : String
deriving DecidableEq, Repr

/-- `MedicalContentValidator._load_dangerous_patterns`. -/
def dangerous_patterns : List DangerousRule :=
  [ ⟨[["암", "cancer"], ["완치", "치료"], ["마늘", "생강", "민간요법"]],
      "검증되지 않은 암 치료법 정보"⟩,
    ⟨[["혈압", "blood pressure"], ["200"], ["정상"]],
      "잘못된 혈압 정상 수치 정보"⟩,
    ⟨[["당뇨병", "diabetes"], ["완치"], ["운동만으로", "식이만으로"]],
      "당뇨병 완치 관련 잘못된 정보"⟩,
    ⟨[["항생제", "antibiotic"], ["바이러스"], ["효과"]],
      "항생제와 바이러스에 대한 잘못된 정보"⟩,
    ⟨[["백신", "vaccine"], ["자폐", "autism", "위험"]],
      "백신에 대한 잘못된 정보"⟩,
    ⟨[["병원", "의사"], ["필요없", "불필요"], ["자가치료"]],
      "의료진 상담을 배제하는 위험한 조언"⟩,
    ⟨[["응급실", "119"], ["가지마", "피해"]],
      "응급상황에서 위험한 조언"⟩ ]

structure MisinfoRule where
  pattern : List (List String)
  category : String
  correction : String
deriving DecidableEq, Repr

/-- `MedicalContentValidator._load_misinformation_patterns`. -/
def medical_misinformation : List MisinfoRule :=
  [ ⟨[["고혈압", "hypertension"], ["낮은", "저혈압"]],
      "정의 오류", "고혈압은 혈압이 높은 상태입니다"⟩,
    ⟨[["감기", "cold"], ["항생제"], ["필요"]],
      "치료법 오류", "감기는 바이러스 감염으로 항생제가 효과없습니다"⟩,
    ⟨[["인슐린", "insulin"], ["중독"], ["위험"]],
      "약물 오해", "인슐린은 당뇨병 치료에 필수적인 약물입니다"⟩,
    ⟨[["비타민", "vitamin"], ["과다섭취"], ["안전"]],
      "영양소 오해", "일부 비타민은 과다섭취 시 부작용이 있습니다"⟩ ]

/-- `MedicalContentValidator._load_emergency_keywords`. -/
def emergency_keywords : List String :=
  ["심장마비", "심정지", "의식잃음", "호흡곤란", "심한가슴통증",
   "대량출혈", "골절", "화상", "중독", "알레르기쇼크",
   "뇌졸중", "경련", "발작", "응급", "위급", "심각"]

/-- `MedicalContentValidator._load_trusted_sources`. -/
def trusted_sources : List String :=
  ["질병관리청", "대한의학회", "대한의사협회", "보건복지부",
   "WHO", "CDC", "Mayo Clinic", "WebMD", "의학논문",
   "병원공식자료", "의과대학", "간호대학"]

/-- the `personal_sources` local of `_assess_source_reliability`. -/
def personal_sources : List String := ["blog", "cafe", "개인", "후기", "경험담"]

/-- the `media_sources` local of `_assess_source_reliability`. -/
def media_sources : List String := ["news", "뉴스", "잡지", "magazine"]

/-- `_check_dangerous_patterns`: the rules whose pattern fires. -/
def check_dangerous_patterns (content : String) : List DangerousRule :=
  dangerous_patterns.filter fun p => reSearch p.pattern content

/-- `_check_misinformation`: the misinformation rules that fire. -/
def check_misinformation (content : String) : List MisinfoRule :=
  medical_misinformation.filter fun m => reSearch m.pattern content

/-- `_check_emergency_keywords`: keywords occurring in the lowercased
content (plain substring). -/
def check_emergency_keywords (content : String) : List String :=
  emergency_keywords.filter fun k => strContains (lowerStr content) k

/-- Source metadata as `_assess_source_reliability` reads it:
`metadata.get("source", "")` and `metadata.get("file_name", "")`. -/
structure SourceMetadata where
  source : String
  file_name : String
deriving DecidableEq, Repr

/-- the first loop of `_assess_source_reliability`: some trusted-source
keyword occurs (lowercased) in the source or the file name. -/
def trustedHit (metadata : SourceMetadata) : Bool :=
  trusted_sources.any fun t =>
    strContains (lowerStr metadata.source) (lowerStr t) ||
    strContains (lowerStr metadata.file_name) (lowerStr t)

/-- the second loop: a personal-source keyword occurs. -/
def personalHit (metadata : SourceMetadata) : Bool :=
  personal_sources.any fun p =>
    strContains (lowerStr metadata.source) p ||
    strContains (lowerStr metadata.file_name) p

/-- the third loop: a media keyword occurs. -/
def mediaHit (metadata : SourceMetadata) : Bool :=
  media_sources.any fun m =>
    strContains (lowerStr metadata.source) m ||
    strContains (lowerStr metadata.file_name) m

/-- `MedicalContentValidator._assess_source_reliability`. -/
def assess_source_reliability (metadata : SourceMetadata) : ReliabilityLevel :=
  if trustedHit metadata then ReliabilityLevel.HIGH
  else if personalHit metadata then ReliabilityLevel.LOW
  else if mediaHit metadata then ReliabilityLevel.MEDIUM
  else ReliabilityLevel.UNKNOWN

/-- `MedicalContentValidator.validate_content`, translated statement by
statement; the mutable locals become successive `let` bindings.

All confidence values the source can produce are integer multiples of
`0.1`, and on those the IEEE-754 run agrees with exact decimal
arithmetic (starting value `0.8`, deductions `0.4`, `0.2`, `0.3`,
`max(0.1, ·)` returning the literal `0.1` when the running value is
below it).  The running value is therefore carried as an integer count
of tenths, and the resulting `confidence_score` is the exact rational
`mkRat · 10`. -/
def validate_content (content : String) (metadata : Option SourceMetadata) :
    ValidationResult :=
  -- initial state
  let risk0 := RiskLevel.SAFE
  let conf0 : ℤ := 8
  -- 1. dangerous patterns
  let dangerous_found := check_dangerous_patterns content
  let risk1 := if dangerous_found.isEmpty then risk0 else RiskLevel.DANGEROUS
  let warns1 := if dangerous_found.isEmpty then [] else
    dangerous_found.map (·.message)
  let recs1 : List String := if dangerous_found.isEmpty then [] else
    ["전문의와 반드시 상담하세요"]
  let conf1 := if dangerous_found.isEmpty then conf0 else conf0 - 4
  -- 2. misinformation patterns (evaluated unconditionally in the source)
  let misinformation_found := check_misinformation content
  let risk2 := if misinformation_found.isEmpty then risk1
    else if risk1 ≠ RiskLevel.DANGEROUS then RiskLevel.CAUTION else risk1
  let warns2 := if misinformation_found.isEmpty then warns1 else
    warns1 ++ misinformation_found.map (fun m => "잠재적 오류: " ++ m.category)
  let recs2 := if misinformation_found.isEmpty then recs1 else
    recs1 ++ misinformation_found.map (·.correction)
  let conf2 := if misinformation_found.isEmpty then conf1 else conf1 - 2
  -- 3. source reliability
  let reliability := match metadata with
    | none => ReliabilityLevel.UNKNOWN
    | some md => assess_source_reliability md
  let lowRel := metadata.isSome && (reliability = ReliabilityLevel.LOW : Bool)
  let risk3 := if lowRel then
      (if risk2 = RiskLevel.SAFE then RiskLevel.CAUTION else risk2)
    else risk2
  let warns3 := if lowRel then warns2 ++ ["신뢰도가 낮은 출처입니다"] else warns2
  let conf3 := if lowRel then conf2 - 3 else conf2
  -- 4. emergency keywords
  let emergency_found := check_emergency_keywords content
  let warns4 := if emergency_found.isEmpty then warns3 else
    warns3 ++ ["응급상황 관련 내용이 감지되었습니다"]
  let recs4 := if emergency_found.isEmpty then recs2 else
    recs2 ++ ["즉시 119에 신고하거나 응급실을 방문하세요"]
  -- 5. final verdict (`max(0.1, confidence_score)`)
  { is_safe := risk3 ≠ RiskLevel.DANGEROUS
    risk_level := risk3
    reliability := reliability
    warnings := warns4
    recommendations := recs4
    confidence_score := mkRat (if conf3 < 1 then 1 else conf3) 10 }

/-! ## Conflict detector (`ConflictDetector`) -/

structure ConflictRecord where
  type : String
  description : String
  standard : String
deriving DecidableEq, Repr

structure ConflictReport where
  has_conflicts : Bool
  conflicts : List ConflictRecord
  suggestions : List String
  confidence : ℚ
deriving DecidableEq, Repr

/-- `ConflictDetector._load_medical_facts` (insertion order kept). -/
def known_medical_facts : List (String × String) :=
  [ ("고혈압_정의", "혈압이 정상보다 높은 상태 (140/90mmHg 이상)"),
    ("당뇨병_완치", "당뇨병은 완치되지 않고 관리하는 질병"),
    ("감기_항생제", "감기는 바이러스 감염으로 항생제 효과 없음"),
    ("정상체온", "36.5-37.5도 사이가 정상 체온"),
    ("응급실_방문", "의식잃음, 호흡곤란, 심한 흉통 시 즉시 응급실") ]

/-- `ConflictDetector._check_specific_conflict`; `content` arrives
already lowercased, as in the source. -/
def check_specific_conflict (content fact_key fact_value : String) :
    Option ConflictRecord :=
  if fact_key = "고혈압_정의" then
    if strContains content "고혈압" &&
        (strContains content "낮은" || strContains content "저혈압") then
      some ⟨"정의 충돌", "고혈압을 낮은 혈압으로 설명", fact_value⟩
    else none
  else if fact_key = "당뇨병_완치" then
    if strContains content "당뇨병" && strContains content "완치" &&
        (strContains content "가능" || strContains content "된다") then
      some ⟨"치료 정보 충돌", "당뇨병 완치 가능하다고 주장", fact_value⟩
    else none
  else if fact_key = "감기_항생제" then
    if strContains content "감기" && strContains content "항생제" &&
        (strContains content "효과" || strContains content "치료") then
      some ⟨"치료법 충돌", "감기에 항생제가 효과적이라고 주장", fact_value⟩
    else none
  else none

/-- `ConflictDetector.detect_conflicts`. -/
def detect_conflicts (rag_content : String) (_topic : String) : ConflictReport :=
  let content := lowerStr rag_content
  let found := known_medical_facts.filterMap fun kv =>
    (check_specific_conflict content kv.1 kv.2).map fun c =>
      (c, "일반적으로 알려진 정보: " ++ kv.2)
  { has_conflicts := !found.isEmpty
    conflicts := found.map (·.1)
    suggestions := found.map (·.2)
    confidence := if found.isEmpty then mkRat 1 10 else mkRat 9 10 }

/-! ## Safety prompt composer (`create_safety_enhanced_prompt`) -/

/-- `create_safety_enhanced_prompt`, the Python triple-quoted blocks
rendered with explicit newline escapes. -/
def create_safety_enhanced_prompt (validation_result : ValidationResult)
    (conflict_info : Option ConflictReport) : String :=
  let base0 := "당신은 의료 정보 AI 어시스턴트입니다. 다음 중요 사항을 반드시 준수하세요:\n\n⚠️ 안전 지침:\n1. 개인별 진단이나 처방은 절대 하지 마세요\n2. 심각한 증상의 경우 즉시 의료진 상담을 권하세요\n3. 응급상황 시 119 신고를 최우선으로 안내하세요"
  let base1 :=
    if validation_result.risk_level = RiskLevel.DANGEROUS then
      base0 ++ "\n\n🚨 위험 경고:\n- 제공된 문서에 위험한 정보가 포함되어 있습니다\n- 해당 정보는 신뢰하지 마세요\n- 반드시 전문의와 상담하도록 안내하세요"
    else if validation_result.risk_level = RiskLevel.CAUTION then
      base0 ++ "\n\n⚠️ 주의 사항:\n- 제공된 정보의 신뢰도가 확실하지 않습니다\n- 일반적인 의학 상식과 함께 제공하세요\n- 전문의 확인을 권하세요"
    else base0
  let base2 :=
    match conflict_info with
    | some ci =>
      if ci.has_conflicts then
        base1 ++ "\n\n🔍 정보 충돌 감지:\n- 문서 정보와 일반 의학 지식이 상충됩니다\n- 양쪽 정보를 모두 언급하고 차이점을 설명하세요\n- 정확한 정보는 의료진에게 확인받도록 안내하세요"
      else base1
    | none => base1
  let base3 :=
    if validation_result.warnings.isEmpty then base2 else
      base2 ++ "\n\n⚠️ 감지된 경고사항:\n" ++
        strJoin "\n" (validation_result.warnings.map (fun w => "- " ++ w))
  base3 ++ "\n\n컨텍스트 정보:\n{context}\n\n답변 시 반드시 포함할 내용:\n- 명확하고 이해하기 쉬운 설명\n- 관련 주의사항\n- \"정확한 진단과 치료를 위해서는 의료진과 상담하시기 바랍니다\" 문구"

/-! ## Orchestrator (`MedicalChatbot.ask_medical_question`)

The collaborators are parameters of the embedding:

* `searchOutcome` is the retrieval collaborator's behaviour on this
  question (`rag_pipeline.search_documents`): a result list, or a raised
  exception carried as `Except.error`;
* `llm` is the generation collaborator (`chain.invoke`), taking the
  composed system prompt, the rendered context and the question and
  producing the response content or a raised exception;
* `pyset` models the iteration order of Python's `list(set(...))` at
  line 211 of `medical_chatbot.py`.  CPython string hashing is seeded
  per process, so the order of a `set` of file names is not specified;
  any function enumerating each distinct element exactly once (the
  predicate `IsPySet`) is an admissible behaviour.

A raised exception anywhere in the `try` block lands in the `except`
clause, which builds the `error` result.  Result-dictionary keys that a
branch does not set are modelled by the neutral defaults `[]` / `none` /
`false`. -/

structure DocMetadata where
  source : Option String
  file_name : Option String
deriving DecidableEq, Repr

structure SearchResult where
  content : String
  metadata : DocMetadata
  similarity_score : ℚ
  rank : Nat
deriving DecidableEq, Repr

structure ValidationSummary where
  risk_level : String
  reliability : String
  confidence_score : ℚ
  warnings : List String
  recommendations : List String
deriving DecidableEq, Repr

structure ChatResult where
  answer : String
  type : String
  sources : List String
  query : String
  safety_level : String
  validation_warnings : List String
  search_results : List SearchResult
  validation_result : Option ValidationSummary
  conflict_info : Option ConflictReport
  enhanced_safety : Bool
deriving DecidableEq, Repr

/-- `pyset` is an admissible behaviour of `list(set(...))`: each
distinct element of the input exactly once, in some order. -/
def IsPySet (f : List String → List String) : Prop :=
  ∀ l : List String, (f l).Nodup ∧ ∀ x, x ∈ f l ↔ x ∈ l

/-- the `emergency_keywords` local at line 113 of `medical_chatbot.py`
(checked against the raw question, not lowercased). -/
def emergency_keywords_chat : List String :=
  ["응급", "위급", "심각", "의식잃음", "호흡곤란", "가슴통증", "심장마비"]

/-- line 114: `any(keyword in question for keyword in emergency_keywords)`. -/
def isEmergencyQuestion (question : String) : Bool :=
  emergency_keywords_chat.any fun k => strContains question k

/-- the fixed metadata of step 3 (line 139): `{"source": "rag_search_results"}`;
the absent `file_name` key reads back as `""` in `_assess_source_reliability`. -/
def rag_metadata : SourceMetadata := ⟨"rag_search_results", ""⟩

/-- lines 136-140: validation of the concatenated retrieved content. -/
def chatValidation (search_results : List SearchResult) : ValidationResult :=
  validate_content (strJoin "\n" (search_results.map (·.content))) (some rag_metadata)

/-- line 143: conflict detection over the same concatenated content. -/
def chatConflict (search_results : List SearchResult) (question : String) :
    ConflictReport :=
  detect_conflicts (strJoin "\n" (search_results.map (·.content))) question

/-- lines 170-177: reliability tag appended to each context block. -/
def reliability_info (v : ValidationResult) : String :=
  if v.reliability = ReliabilityLevel.LOW then " [신뢰도 낮음]"
  else if v.reliability = ReliabilityLevel.HIGH then " [신뢰할 만한 출처]"
  else ""

/-- lines 168-181: the rendered context string. -/
def buildContext (v : ValidationResult) (search_results : List SearchResult) :
    String :=
  strJoin "\n\n" (search_results.map fun r =>
    "[출처: " ++ r.metadata.file_name.getD "Unknown" ++ reliability_info v ++
      "]\n" ++ r.content)

/-- lines 197-206: the safety footer lines. -/
def safetyMessages (v : ValidationResult) (c : ConflictReport) : List String :=
  ["⚠️ 정확한 진단과 치료를 위해서는 의료진과 상담하시기 바랍니다."]
  ++ (if v.warnings.isEmpty then [] else v.warnings.map (fun w => "• " ++ w))
  ++ (if c.has_conflicts then
        ["• 일반적인 의학 지식과 다른 내용이 포함되어 있을 수 있습니다."] else [])
  ++ (if v.recommendations.isEmpty then [] else
        v.recommendations.map (fun r => "• " ++ r))

/-- the emergency answer text (line 116). -/
def emergencyAnswer : String :=
  "🚨 응급상황으로 보입니다. 즉시 119에 신고하거나 가장 가까운 응급실로 가시기 바랍니다. 이는 의료 응급상황일 수 있어 즉각적인 전문의료진의 도움이 필요합니다."

/-- the `no_result` answer text (line 128). -/
def noResultAnswer : String :=
  "죄송합니다. 해당 의료 정보를 찾을 수 없습니다. 구체적인 의료 상담이 필요하시면 의료진과 상담하시기 바랍니다."

/-- the `blocked_dangerous` answer (lines 149-156): a fixed template
around `"; ".join(validation.warnings)` — built from the validation
warnings and nothing else. -/
def blockedAnswer (warning_msg : String) : String :=
  "⚠️ 검색된 정보에 위험한 내용이 감지되었습니다.\n                    \n감지된 문제: " ++ warning_msg ++ "\n\n안전을 위해 해당 정보는 제공하지 않습니다. \n정확한 의료 정보는 반드시 의료진과 직접 상담하시기 바랍니다.\n\n🏥 권장사항: 병원 방문 또는 의료 상담 전화를 이용하세요."

/-- the `error` answer (line 244). -/
def errorAnswer (e : String) : String :=
  "답변 생성 중 오류가 발생했습니다. 의료진과 직접 상담하시기 바랍니다. (오류: " ++ e ++ ")"

/-- the `except` clause's result (lines 241-249). -/
def errorResult (question e : String) : ChatResult :=
  { answer := errorAnswer e, type := "error", sources := [], query := question
    safety_level := "error", validation_warnings := [], search_results := []
    validation_result := none, conflict_info := none, enhanced_safety := false }

/-- `MedicalChatbot.ask_medical_question`, step by step. -/
def askMedicalQuestion (pyset : List String → List String)
    (llm : String → String → String → Except String String)
    (question : String)
    (searchOutcome : Except String (List SearchResult)) : ChatResult :=
  -- 1. emergency keyword check on the raw question
  if isEmergencyQuestion question then
    { answer := emergencyAnswer, type := "emergency", sources := []
      query := question, safety_level := "critical", validation_warnings := []
      search_results := [], validation_result := none, conflict_info := none
      enhanced_safety := false }
  else
    -- 2. retrieval (a raised exception falls through to the except clause)
    match searchOutcome with
    | Except.error e => errorResult question e
    | Except.ok search_results =>
      if search_results.isEmpty then
        { answer := noResultAnswer, type := "no_result", sources := []
          query := question, safety_level := "safe", validation_warnings := []
          search_results := [], validation_result := none, conflict_info := none
          enhanced_safety := false }
      else
        -- 3./4. validation and conflict detection on concatenated content
        let content_validation := chatValidation search_results
        let conflict := chatConflict search_results question
        -- 5. safety gate
        if content_validation.risk_level = RiskLevel.DANGEROUS then
          { answer := blockedAnswer (strJoin "; " content_validation.warnings)
            type := "blocked_dangerous", sources := [], query := question
            safety_level := "blocked"
            validation_warnings := content_validation.warnings
            search_results := [], validation_result := none
            conflict_info := none, enhanced_safety := false }
        else
          -- 6./7./8. prompt, context, generation
          let enhanced_prompt :=
            create_safety_enhanced_prompt content_validation (some conflict)
          let context := buildContext content_validation search_results
          match llm enhanced_prompt context question with
          | Except.error e => errorResult question e
          | Except.ok response =>
            -- 9./10. footer, deduplicated sources, safety level, result
            let final_answer := response ++ "\n\n" ++
              strJoin "\n" (safetyMessages content_validation conflict)
            let sources := pyset (search_results.map
              (fun r => r.metadata.file_name.getD "Unknown"))
            let safety_level :=
              if content_validation.risk_level = RiskLevel.CAUTION then "caution"
              else if content_validation.risk_level = RiskLevel.DANGEROUS then
                "dangerous"
              else "safe"
            { answer := final_answer, type := "medical_info_validated"
              sources := sources, query := question
              safety_level := safety_level, validation_warnings := []
              search_results := search_results
              validation_result := some
                { risk_level := content_validation.risk_level.value
                  reliability := content_validation.reliability.value
                  confidence_score := content_validation.confidence_score
                  warnings := content_validation.warnings
                  recommendations := content_validation.recommendations }
              conflict_info := some conflict
              enhanced_safety := true }

/-- First-seen-order deduplication: the spec's notion of the
deduplicated source list ("stable first-seen order").  `seen`
accumulates the names already emitted. -/
def dedupGo (seen : List String) : List String → List String
  | [] => []
  | x :: xs => if seen.contains x then dedupGo seen xs
    else x :: dedupGo (x :: seen) xs

/-- The retrieved file names deduplicated in first-seen order. -/
def dedupFS (l : List String) : List String := dedupGo [] l

/-- An admissible `list(set(...))` behaviour that enumerates the
distinct elements in the reverse of first-seen order. -/
def revPySet (l : List String) : List String := (dedupFS l).reverse

/-- A generation collaborator that always succeeds with a fixed reply. -/
def llmOk : String → String → String → Except String String :=
  fun _ _ _ => Except.ok "답변"

/-- A retrieval result list with a duplicated file name (safe content). -/
def dupNameResults : List SearchResult :=
  [ ⟨"물은 하루에 충분히 마시는 것이 좋습니다", ⟨none, some "b.txt"⟩, mkRat 1 1, 1⟩,
    ⟨"규칙적인 수면이 건강에 도움이 됩니다", ⟨none, some "a.txt"⟩, mkRat 1 2, 2⟩,
    ⟨"손 씻기는 기본적인 위생 수칙입니다", ⟨none, some "b.txt"⟩, mkRat 1 3, 3⟩ ]

/-- A retrieved document whose content fires a dangerous rule. -/
def dangerDoc : SearchResult :=
  ⟨"백신은 자폐를 유발합니다", ⟨none, some "d.txt"⟩, mkRat 1 1, 1⟩

/-- Two single-document result lists with identical content but
different document metadata (personal blog vs. official agency). -/
def metaDocsA : List SearchResult :=
  [⟨"고혈압 관리에는 규칙적인 운동이 좋습니다", ⟨some "개인블로그", some "blog.txt"⟩, mkRat 1 1, 1⟩]

def metaDocsB : List SearchResult :=
  [⟨"고혈압 관리에는 규칙적인 운동이 좋습니다", ⟨some "질병관리청", some "official.txt"⟩, mkRat 1 1, 1⟩]

end RagMed

namespace RagMed

/-! ## Helper lemmas -/

theorem dedupGo_spec (l : List String) : ∀ seen,
    (dedupGo seen l).Nodup ∧ ∀ x, x ∈ dedupGo seen l ↔ x ∈ l ∧ x ∉ seen := by
  induction l with
  | nil => intro seen; simp [dedupGo]
  | cons a t ih =>
    intro seen
    cases h : seen.contains a with
    | true =>
      have ha : a ∈ seen := List.elem_iff.mp h
      obtain ⟨hn, hm⟩ := ih seen
      rw [dedupGo, h, if_pos rfl]
      refine ⟨hn, fun x => ?_⟩
      rw [hm x, List.mem_cons]
      constructor
      · rintro ⟨hx, hs⟩; exact ⟨Or.inr hx, hs⟩
      · rintro ⟨hx | hx, hs⟩
        · exact absurd (hx ▸ ha) hs
        · exact ⟨hx, hs⟩
    | false =>
      have ha : a ∉ seen := fun hmem => by
        have hc : seen.contains a = true := List.elem_iff.mpr hmem
        rw [hc] at h; cases h
      obtain ⟨hn, hm⟩ := ih (a :: seen)
      rw [dedupGo, h, if_neg Bool.false_ne_true]
      constructor
      · refine List.nodup_cons.mpr ⟨fun hmem => ?_, hn⟩
        exact ((hm a).mp hmem).2 (List.mem_cons_self a seen)
      · intro x
        rw [List.mem_cons, hm x, List.mem_cons, List.mem_cons]
        constructor
        · rintro (rfl | ⟨hx, hs⟩)
          · exact ⟨Or.inl rfl, ha⟩
          · exact ⟨Or.inr hx, fun hxs => hs (Or.inr hxs)⟩
        · rintro ⟨rfl | hx, hs⟩
          · exact Or.inl rfl
          · by_cases hxa : x = a
            · exact Or.inl hxa
            · exact Or.inr ⟨hx, fun hc => hc.elim hxa hs⟩

theorem isPySet_dedupFS : IsPySet dedupFS := by
  intro l
  obtain ⟨hn, hm⟩ := dedupGo_spec l []
  exact ⟨hn, fun x => by rw [dedupFS, hm x]; simp⟩

theorem isPySet_revPySet : IsPySet revPySet := by
  intro l
  obtain ⟨hn, hm⟩ := isPySet_dedupFS l
  constructor
  · rw [revPySet]; exact List.nodup_reverse.mpr hn
  · intro x; rw [revPySet, List.mem_reverse]; exact hm x

/-! ## Claims -/

/-- Claim C3: for every content and optional metadata,
`validate_content` returns `is_safe == (risk_level != DANGEROUS)`; if
any dangerous rule matches, the final risk level is `DANGEROUS` (so no
later step downgraded it) and `is_safe` is `false`, independent of the
metadata. -/
theorem C3_dangerous_invariant (content : String) (metadata : Option SourceMetadata) :
    ((validate_content content metadata).is_safe = true ↔
      (validate_content content metadata).risk_level ≠ RiskLevel.DANGEROUS) ∧
    (check_dangerous_patterns content ≠ [] →
      (validate_content content metadata).risk_level = RiskLevel.DANGEROUS ∧
      (validate_content content metadata).is_safe = false) := by
  constructor
  · simp [validate_content]
  · intro hd
    cases hD : check_dangerous_patterns content with
    | nil => exact absurd hD hd
    | cons a l =>
      constructor
      · simp [validate_content, hD]
      · simp [validate_content, hD]

theorem C3_witness :
    (validate_content "백신은 자폐를 유발합니다" none).risk_level = RiskLevel.DANGEROUS ∧
    (validate_content "백신은 자폐를 유발합니다" none).is_safe = false :=
  (C3_dangerous_invariant "백신은 자폐를 유발합니다" none).2 (by decide)

/-- Claim C4: the confidence score of every validation lies in
`[0.1, 0.8]` (as exact decimals, `mkRat 1 10` to `mkRat 8 10`); content
that fires a dangerous rule and a misinformation rule, validated with
metadata of LOW reliability, scores exactly `0.1`
(`0.8 - 0.4 - 0.2 - 0.3` floored at `0.1`). -/
theorem C4_confidence_bounds (content : String) (metadata : Option SourceMetadata) :
    (mkRat 1 10 ≤ (validate_content content metadata).confidence_score ∧
      (validate_content content metadata).confidence_score ≤ mkRat 8 10) ∧
    (∀ md : SourceMetadata, check_dangerous_patterns content ≠ [] →
      check_misinformation content ≠ [] →
      assess_source_reliability md = ReliabilityLevel.LOW →
      (validate_content content (some md)).confidence_score = mkRat 1 10) := by
  constructor
  · simp only [validate_content]
    split_ifs <;> first | exact ⟨by decide, by decide⟩ | (exfalso; omega)
  · intro md hd hm hlow
    cases hD : check_dangerous_patterns content with
    | nil => exact absurd hD hd
    | cons a l =>
      cases hM : check_misinformation content with
      | nil => exact absurd hM hm
      | cons b t =>
        simp [validate_content, hD, hM, hlow]

theorem C4_witness :
    (validate_content "백신 자폐 고혈압 낮은"
      (some ⟨"blog", ""⟩)).confidence_score = mkRat 1 10 :=
  (C4_confidence_bounds "백신 자폐 고혈압 낮은" none).2
    ⟨"blog", ""⟩ (by decide) (by decide) (by decide)

/-- Claim C5 counterexample: on content firing both a dangerous rule
(`백신…자폐`) and a misinformation rule (`고혈압…낮은`), the risk level
is DANGEROUS and yet the misinformation step did contribute a warning,
a correction and its 0.2 deduction (confidence `0.8 - 0.4 - 0.2 = 0.2`)
— contradicting the claim that the step contributes nothing when the
risk is already DANGEROUS. -/
theorem C5_counterexample :
    (validate_content "백신 자폐 고혈압 낮은" none).risk_level = RiskLevel.DANGEROUS ∧
    check_misinformation "백신 자폐 고혈압 낮은" ≠ [] ∧
    "잠재적 오류: 정의 오류" ∈ (validate_content "백신 자폐 고혈압 낮은" none).warnings ∧
    "고혈압은 혈압이 높은 상태입니다" ∈
      (validate_content "백신 자폐 고혈압 낮은" none).recommendations ∧
    (validate_content "백신 자폐 고혈압 낮은" none).confidence_score = mkRat 2 10 := by
  refine ⟨by decide, by decide, by decide, by decide, by decide⟩

/-- Claim C5 (amended): misinformation rules are evaluated
unconditionally; on any match, a category-labeled warning and a
correction are appended per matching rule and 0.2 is deducted once per
call regardless of whether the risk is already DANGEROUS (the final
score is `0.8 - 0.2`, further lowered by `0.4` on a dangerous match and
by `0.3` on LOW reliability, floored at `0.1`); only the setting of
`risk_level` to CAUTION is guarded by the risk not already being
DANGEROUS. -/
theorem C5_misinformation_step (content : String) (metadata : Option SourceMetadata)
    (hm : check_misinformation content ≠ []) :
    List.Sublist
      ((check_misinformation content).map (fun m => "잠재적 오류: " ++ m.category))
      (validate_content content metadata).warnings ∧
    List.Sublist
      ((check_misinformation content).map (·.correction))
      (validate_content content metadata).recommendations ∧
    (validate_content content metadata).risk_level =
      (if check_dangerous_patterns content = [] then RiskLevel.CAUTION
        else RiskLevel.DANGEROUS) ∧
    (validate_content content metadata).confidence_score =
      mkRat
        (if check_dangerous_patterns content = [] then
          (if metadata.map assess_source_reliability =
              some ReliabilityLevel.LOW then 3 else 6)
         else
          (if metadata.map assess_source_reliability =
              some ReliabilityLevel.LOW then 1 else 2)) 10 := by
  cases hM : check_misinformation content with
  | nil => exact absurd hM hm
  | cons b t =>
    refine ⟨?_, ?_, ?_, ?_⟩
    · simp only [validate_content, hM]
      split_ifs <;>
        first
        | exact (List.sublist_append_right _ _).trans
            ((List.sublist_append_left _ _).trans (List.sublist_append_left _ _))
        | exact (List.sublist_append_right _ _).trans (List.sublist_append_left _ _)
        | exact List.sublist_append_right _ _
        | simp_all
    · simp only [validate_content, hM]
      split_ifs <;>
        first
        | exact (List.sublist_append_right _ _).trans (List.sublist_append_left _ _)
        | exact List.sublist_append_right _ _
        | simp_all
    · cases hD : check_dangerous_patterns content with
      | nil => simp [validate_content, hD, hM]
      | cons a l => simp [validate_content, hD, hM]
    · cases hD : check_dangerous_patterns content with
      | nil =>
        cases metadata with
        | none => simp [validate_content, hD, hM]
        | some md =>
          by_cases hlow : assess_source_reliability md = ReliabilityLevel.LOW
          · simp [validate_content, hD, hM, hlow]
          · simp [validate_content, hD, hM, hlow]
      | cons a l =>
        cases metadata with
        | none => simp [validate_content, hD, hM]
        | some md =>
          by_cases hlow : assess_source_reliability md = ReliabilityLevel.LOW
          · simp [validate_content, hD, hM, hlow]
          · simp [validate_content, hD, hM, hlow]

theorem C5_witness :
    (validate_content "고혈압은 낮은 혈압입니다" none).confidence_score = mkRat 6 10 := by
  rw [(C5_misinformation_step "고혈압은 낮은 혈압입니다" none (by decide)).2.2.2]
  decide

/-- Claim C6: source reliability is classified by checking the trusted
keywords first (HIGH), else the personal-source keywords (LOW), else
the media keywords (MEDIUM), else UNKNOWN, in that priority order; the
four concrete sources of the spec map to HIGH, LOW, MEDIUM and
UNKNOWN respectively. -/
theorem C6_reliability_priority :
    (assess_source_reliability ⟨"질병관리청", ""⟩ = ReliabilityLevel.HIGH ∧
     assess_source_reliability ⟨"개인블로그", ""⟩ = ReliabilityLevel.LOW ∧
     assess_source_reliability ⟨"뉴스", ""⟩ = ReliabilityLevel.MEDIUM ∧
     assess_source_reliability ⟨"출처미상", ""⟩ = ReliabilityLevel.UNKNOWN) ∧
    (∀ md : SourceMetadata,
      (trustedHit md = true →
        assess_source_reliability md = ReliabilityLevel.HIGH) ∧
      (trustedHit md = false → personalHit md = true →
        assess_source_reliability md = ReliabilityLevel.LOW) ∧
      (trustedHit md = false → personalHit md = false → mediaHit md = true →
        assess_source_reliability md = ReliabilityLevel.MEDIUM) ∧
      (trustedHit md = false → personalHit md = false → mediaHit md = false →
        assess_source_reliability md = ReliabilityLevel.UNKNOWN)) := by
  refine ⟨⟨by decide, by decide, by decide, by decide⟩, fun md => ⟨?_, ?_, ?_, ?_⟩⟩ <;>
    intros <;> simp [assess_source_reliability, *]

theorem C6_witness :
    trustedHit ⟨"질병관리청 blog", ""⟩ = true ∧
    personalHit ⟨"질병관리청 blog", ""⟩ = true ∧
    assess_source_reliability ⟨"질병관리청 blog", ""⟩ = ReliabilityLevel.HIGH :=
  ⟨by decide, by decide,
    (C6_reliability_priority.2 ⟨"질병관리청 blog", ""⟩).1 (by decide)⟩

/-- Claim C7, evaluated on the code: on the spec's sentence the conflict
detector finds no conflict at all (`has_conflicts = false`, no record),
because the hypertension predicate looks for the literal substrings
`낮은` / `저혈압` while the sentence uses the conjugated form `낮을`;
the nearby sentence with `낮은` does produce exactly the one
definition-conflict record with the canonical standard text. -/
theorem C7_eval :
    (detect_conflicts "고혈압은 혈압이 너무 낮을 때 발생하는 질병입니다." "").has_conflicts
      = false ∧
    (detect_conflicts "고혈압은 혈압이 너무 낮을 때 발생하는 질병입니다." "").conflicts
      = [] ∧
    strContains "고혈압은 혈압이 너무 낮을 때 발생하는 질병입니다." "고혈압" = true ∧
    strContains "고혈압은 혈압이 너무 낮을 때 발생하는 질병입니다." "낮은" = false ∧
    strContains "고혈압은 혈압이 너무 낮을 때 발생하는 질병입니다." "저혈압" = false ∧
    (detect_conflicts "고혈압은 혈압이 낮은 때 발생하는 질병입니다." "").conflicts
      = [⟨"정의 충돌", "고혈압을 낮은 혈압으로 설명",
          "혈압이 정상보다 높은 상태 (140/90mmHg 이상)"⟩] := by
  refine ⟨by decide, by decide, by decide, by decide, by decide, by decide⟩

/-- Claim C1: safety gate — on a question that reaches retrieval (no
emergency keyword) with a non-empty result list whose concatenated
content validates to risk level DANGEROUS, `ask_medical_question`
returns the terminal type `blocked_dangerous`, its answer is the fixed
blocked template around the joined validation warnings and nothing
else, and the whole result is independent of the generation
collaborator (generation is never invoked). -/
theorem C1_safety_gate (pyset : List String → List String)
    (llm₁ llm₂ : String → String → String → Except String String)
    (question : String) (results : List SearchResult)
    (hq : isEmergencyQuestion question = false)
    (hne : results ≠ [])
    (hd : (chatValidation results).risk_level = RiskLevel.DANGEROUS) :
    (askMedicalQuestion pyset llm₁ question (Except.ok results)).type =
      "blocked_dangerous" ∧
    (askMedicalQuestion pyset llm₁ question (Except.ok results)).answer =
      blockedAnswer (strJoin "; " (chatValidation results).warnings) ∧
    askMedicalQuestion pyset llm₁ question (Except.ok results) =
      askMedicalQuestion pyset llm₂ question (Except.ok results) := by
  cases results with
  | nil => exact absurd rfl hne
  | cons a l => simp [askMedicalQuestion, hq, hd]

theorem C1_witness :
    (askMedicalQuestion (fun l => l) llmOk "질문" (Except.ok [dangerDoc])).type =
      "blocked_dangerous" ∧
    (askMedicalQuestion (fun l => l) llmOk "질문" (Except.ok [dangerDoc])).answer =
      blockedAnswer (strJoin "; " (chatValidation [dangerDoc]).warnings) ∧
    askMedicalQuestion (fun l => l) llmOk "질문" (Except.ok [dangerDoc]) =
      askMedicalQuestion (fun l => l) (fun _ _ _ => Except.error "중단")
        "질문" (Except.ok [dangerDoc]) :=
  C1_safety_gate (fun l => l) llmOk (fun _ _ _ => Except.error "중단")
    "질문" [dangerDoc] (by decide) (by decide) (by decide)

/-- Claim C2: emergency short-circuit — on a question containing one of
the orchestrator's emergency keywords, `ask_medical_question` returns
type `emergency` with safety level `critical`, and the result is
independent of the retrieval outcome, the generation collaborator and
the set-iteration order (none of them is invoked). -/
theorem C2_emergency_short_circuit
    (pyset₁ pyset₂ : List String → List String)
    (llm₁ llm₂ : String → String → String → Except String String)
    (question : String)
    (out₁ out₂ : Except String (List SearchResult))
    (hq : isEmergencyQuestion question = true) :
    (askMedicalQuestion pyset₁ llm₁ question out₁).type = "emergency" ∧
    (askMedicalQuestion pyset₁ llm₁ question out₁).safety_level = "critical" ∧
    askMedicalQuestion pyset₁ llm₁ question out₁ =
      askMedicalQuestion pyset₂ llm₂ question out₂ := by
  simp [askMedicalQuestion, hq]

theorem C2_witness :
    (askMedicalQuestion (fun l => l) llmOk "위급해요"
      (Except.ok [dangerDoc])).type = "emergency" ∧
    (askMedicalQuestion (fun l => l) llmOk "위급해요"
      (Except.ok [dangerDoc])).safety_level = "critical" ∧
    askMedicalQuestion (fun l => l) llmOk "위급해요" (Except.ok [dangerDoc]) =
      askMedicalQuestion dedupFS (fun _ _ _ => Except.error "중단")
        "위급해요" (Except.error "검색실패") :=
  C2_emergency_short_circuit (fun l => l) dedupFS llmOk
    (fun _ _ _ => Except.error "중단") "위급해요"
    (Except.ok [dangerDoc]) (Except.error "검색실패") (by decide)

/-- Claim C8 counterexample: the source computes the sources field as
`list(set(...))`, whose iteration order is not the first-seen order:
with the admissible set behaviour `revPySet` the run terminates in
`medical_info_validated`, yet the sources field differs from the
first-seen-order deduplication of the retrieved file names. -/
theorem C8_counterexample :
    IsPySet revPySet ∧
    (askMedicalQuestion revPySet llmOk "질문"
      (Except.ok dupNameResults)).type = "medical_info_validated" ∧
    (askMedicalQuestion revPySet llmOk "질문"
      (Except.ok dupNameResults)).sources ≠
      dedupFS (dupNameResults.map fun r => r.metadata.file_name.getD "Unknown") :=
  ⟨isPySet_revPySet, by decide, by decide⟩

/-- Claim C8 (amended): for every admissible `list(set(...))` behaviour,
every run reaching the terminal `medical_info_validated` carries a
sources field that enumerates each distinct retrieved file name exactly
once (no duplicates, same membership as the retrieved names); the
enumeration order is unspecified, not necessarily first-seen. -/
theorem C8_sources_dedup (f : List String → List String) (hf : IsPySet f)
    (llm : String → String → String → Except String String)
    (question : String) (results : List SearchResult)
    (ht : (askMedicalQuestion f llm question (Except.ok results)).type =
      "medical_info_validated") :
    (askMedicalQuestion f llm question (Except.ok results)).sources.Nodup ∧
    ∀ x, x ∈ (askMedicalQuestion f llm question (Except.ok results)).sources ↔
      x ∈ results.map fun r => r.metadata.file_name.getD "Unknown" := by
  cases hq : isEmergencyQuestion question with
  | true => simp [askMedicalQuestion, hq] at ht
  | false =>
    cases results with
    | nil => simp [askMedicalQuestion, hq] at ht
    | cons a l =>
      by_cases hd : (chatValidation (a :: l)).risk_level = RiskLevel.DANGEROUS
      · simp [askMedicalQuestion, hq, hd] at ht
      · cases hl : llm
          (create_safety_enhanced_prompt (chatValidation (a :: l))
            (some (chatConflict (a :: l) question)))
          (buildContext (chatValidation (a :: l)) (a :: l)) question with
        | error e => simp [askMedicalQuestion, hq, hd, hl, errorResult] at ht
        | ok response =>
          simp only [askMedicalQuestion, hq, hd, hl]
          simp only [Bool.false_eq_true, if_false, List.isEmpty_cons,
            if_neg (fun h => hd h)]
          exact ⟨(hf _).1, fun x => (hf _).2 x⟩

theorem C8_witness :
    (askMedicalQuestion dedupFS llmOk "질문"
      (Except.ok dupNameResults)).sources.Nodup ∧
    ("a.txt" ∈ (askMedicalQuestion dedupFS llmOk "질문"
        (Except.ok dupNameResults)).sources ↔
      "a.txt" ∈ dupNameResults.map fun r => r.metadata.file_name.getD "Unknown") :=
  ⟨(C8_sources_dedup dedupFS isPySet_dedupFS llmOk "질문" dupNameResults
      (by decide)).1,
   (C8_sources_dedup dedupFS isPySet_dedupFS llmOk "질문" dupNameResults
      (by decide)).2 "a.txt"⟩

/-- Claim C9 counterexample: on the blocked-dangerous path the safety
level is the string `blocked`, which is not in the claimed value set
`{safe, caution, dangerous, critical, error}`. -/
theorem C9_counterexample :
    (askMedicalQuestion (fun l => l) llmOk "질문"
      (Except.ok [dangerDoc])).safety_level = "blocked" ∧
    ¬ (askMedicalQuestion (fun l => l) llmOk "질문"
        (Except.ok [dangerDoc])).safety_level ∈
      (["safe", "caution", "dangerous", "critical", "error"] : List String) := by
  refine ⟨by decide, by decide⟩

/-- Claim C9 (amended): the safety level is always one of exactly
`{safe, caution, critical, error, blocked}`: `critical` on the
emergency path, `error` on collaborator failure, `blocked` on the
blocked-dangerous path, `safe` on `no_result`, and on
`medical_info_validated` the image of the risk level of the run's
validation — which is never DANGEROUS there — under SAFE→`safe`,
CAUTION→`caution`; the string `dangerous` is dead code, unreachable
because DANGEROUS returns earlier. -/
theorem C9_safety_levels (pyset : List String → List String)
    (llm : String → String → String → Except String String)
    (question : String) (out : Except String (List SearchResult)) :
    (askMedicalQuestion pyset llm question out).safety_level ∈
      (["safe", "caution", "critical", "error", "blocked"] : List String) ∧
    ((askMedicalQuestion pyset llm question out).type = "emergency" →
      (askMedicalQuestion pyset llm question out).safety_level = "critical") ∧
    ((askMedicalQuestion pyset llm question out).type = "error" →
      (askMedicalQuestion pyset llm question out).safety_level = "error") ∧
    ((askMedicalQuestion pyset llm question out).type = "blocked_dangerous" →
      (askMedicalQuestion pyset llm question out).safety_level = "blocked") ∧
    ((askMedicalQuestion pyset llm question out).type = "no_result" →
      (askMedicalQuestion pyset llm question out).safety_level = "safe") ∧
    (∀ results, out = Except.ok results →
      (askMedicalQuestion pyset llm question out).type = "medical_info_validated" →
      (chatValidation results).risk_level ≠ RiskLevel.DANGEROUS ∧
      (askMedicalQuestion pyset llm question out).safety_level =
        (if (chatValidation results).risk_level = RiskLevel.CAUTION then
          "caution" else "safe")) := by
  cases hq : isEmergencyQuestion question with
  | true => simp [askMedicalQuestion, hq]
  | false =>
    cases out with
    | error e => simp [askMedicalQuestion, hq, errorResult]
    | ok results =>
      cases results with
      | nil => simp [askMedicalQuestion, hq]
      | cons a l =>
        by_cases hd : (chatValidation (a :: l)).risk_level = RiskLevel.DANGEROUS
        · simp [askMedicalQuestion, hq, hd]
        · cases hl : llm
            (create_safety_enhanced_prompt (chatValidation (a :: l))
              (some (chatConflict (a :: l) question)))
            (buildContext (chatValidation (a :: l)) (a :: l)) question with
          | error e => simp [askMedicalQuestion, hq, hd, hl, errorResult]
          | ok response =>
            cases hr : (chatValidation (a :: l)).risk_level with
            | SAFE => simp [askMedicalQuestion, hq, hd, hl, hr]
            | CAUTION => simp [askMedicalQuestion, hq, hd, hl, hr]
            | DANGEROUS => exact absurd hr hd

theorem C9_witness :
    (askMedicalQuestion (fun l => l) (fun _ _ _ => Except.error "중단")
      "응급입니다" (Except.error "검색실패")).safety_level = "critical" :=
  (C9_safety_levels (fun l => l) (fun _ _ _ => Except.error "중단")
    "응급입니다" (Except.error "검색실패")).2.1 (by decide)

/-- Claim C10: on the question path the validator always runs with the
fixed metadata `{source: "rag_search_results"}`, which matches no
trusted, personal or media keyword, so the reported reliability is
UNKNOWN, the validation with that metadata coincides with validation
without metadata (the LOW escalation and its 0.3 deduction can never
fire), and two retrieval results with the same content lists — however
their document metadata differ — validate identically. -/
theorem C10_metadata_independence (results₁ results₂ : List SearchResult)
    (h : results₁.map (fun r => r.content) = results₂.map (fun r => r.content)) :
    chatValidation results₁ = chatValidation results₂ ∧
    (chatValidation results₁).reliability = ReliabilityLevel.UNKNOWN ∧
    assess_source_reliability rag_metadata = ReliabilityLevel.UNKNOWN ∧
    ∀ content, validate_content content (some rag_metadata) =
      validate_content content none := by
  refine ⟨?_, rfl, by decide, fun content => rfl⟩
  unfold chatValidation
  rw [h]

theorem C10_witness :
    chatValidation metaDocsA = chatValidation metaDocsB ∧
    (chatValidation metaDocsA).reliability = ReliabilityLevel.UNKNOWN :=
  ⟨(C10_metadata_independence metaDocsA metaDocsB (by decide)).1,
   (C10_metadata_independence metaDocsA metaDocsB (by decide)).2.1⟩

end RagMed
